import Mathlib

/-!
Shallow embedding of `src/main.rs` of the rpi-bmark firmware: core
identification (`cpu_id`), exception capture (`fault`), the panic reporter
(`panic`), the stack walker (`backtrace`), the halt routine (`halt`), and the
mutual-exclusion-protected shared UART sink.  Machine registers are modelled
as natural numbers (the AArch64 registers are 64-bit; only masking, shifting
and printing occur, so `Nat` with explicit masks is faithful).  The
diagnostic output is modelled as an event trace (lock acquisitions, string
writes, lock releases) so that the locking discipline of the panic path is
visible in the model.
-/

namespace RpiBmark

/-- Logical CPU count (`CPU_COUNT` in `src/main.rs`). -/
def CPU_COUNT : Nat := 4

/-- Hexadecimal rendering of a natural number in lowercase digits, as
produced by the Rust format specifier `x` (used as `0x{kind:x}` etc. in the
fault message). -/
def hexLower (n : Nat) : String := String.mk (Nat.toDigits 16 n)

/-- Hexadecimal rendering of a natural number in uppercase digits, as
produced by the Rust format specifier `X` (used as `0x{lr:X}` in the
backtrace frame lines). -/
def hexUpper (n : Nat) : String := String.mk ((Nat.toDigits 16 n).map Char.toUpper)

/-- The AArch64 system registers read by `src/main.rs`, as a snapshot of the
machine state at the time of the call.  Each field holds the raw 64-bit
register value. -/
structure Regs where
  mpidr_el1 : Nat
  currentel : Nat
  esr_el1 : Nat
  far_el1 : Nat
  elr_el1 : Nat
  spsr_el1 : Nat
  esr_el2 : Nat
  far_el2 : Nat
  elr_el2 : Nat
  spsr_el2 : Nat
deriving DecidableEq

/-- Names of the level-specific fault registers, used to record which
registers a run of `fault` actually reads. -/
inductive FaultReg where
  | esr_el1 | far_el1 | elr_el1 | spsr_el1
  | esr_el2 | far_el2 | elr_el2 | spsr_el2
deriving DecidableEq

/-- Control outcome of a diverging routine: `ret` models a normal return to
the caller (never produced by `fault`, which ends in a `panic!`), and
`panicked msg` models entering the panic handler with message `msg`. -/
inductive Outcome where
  | ret
  | panicked (msg : String)
deriving DecidableEq

/-- Observable effect of one call to `fault`: the list of level-specific
fault registers it read (in program order), and how control left it. -/
structure FaultEffect where
  faultRegReads : List FaultReg
  outcome : Outcome
deriving DecidableEq

/-- `cpu_id` from `src/main.rs` lines 183-194: reads `mpidr_el1` and masks
the low 8 bits (`and {id}, {id}, #0xff`). -/
def cpu_id (regs : Regs) : Nat := Nat.land regs.mpidr_el1 0xff

/-- The exception level extracted by `fault`: `mrs {el}, currentel` followed
by `lsr {el}, {el}, #2` (the level sits in bits [3:2] of `currentel`). -/
def faultLevel (regs : Regs) : Nat := regs.currentel / 4

/-- The panic message built by `fault` on the success path
(`src/main.rs` line 139): core and level use the default decimal `Display`
formatting, while kind, syndrome, address, location and state use the
lowercase-hex `x` formatting. -/
def faultMsg (core level kind syndrome addr ret state : Nat) : String :=
  "Core #" ++ toString core ++ " triggered an exception at level " ++
  toString level ++ ": Kind: 0x" ++ hexLower kind ++ ", Syndrome: 0x" ++
  hexLower syndrome ++ ", Address: 0x" ++ hexLower addr ++ ", Location: 0x" ++
  hexLower ret ++ ", State: 0x" ++ hexLower state

/-- `fault` from `src/main.rs` lines 101-140: computes the core id and the
current exception level, then matches on the level.  At level 2 it reads
`esr_el2`, `far_el2`, `elr_el2`, `spsr_el2`; at level 1 the `_el1`
counterparts; at any other level it panics immediately without reading any
fault register.  On the success path it panics with the full diagnostic
message.  The function's Rust type is `-> !`: its outcome is always
`panicked`, never `ret`. -/
def fault (regs : Regs) (kind : Nat) : FaultEffect :=
  let core := cpu_id regs
  let level := faultLevel regs
  if level = 2 then
    { faultRegReads := [.esr_el2, .far_el2, .elr_el2, .spsr_el2]
      outcome := .panicked (faultMsg core level kind regs.esr_el2
        regs.far_el2 regs.elr_el2 regs.spsr_el2) }
  else if level = 1 then
    { faultRegReads := [.esr_el1, .far_el1, .elr_el1, .spsr_el1]
      outcome := .panicked (faultMsg core level kind regs.esr_el1
        regs.far_el1 regs.elr_el1 regs.spsr_el1) }
  else
    { faultRegReads := []
      outcome := .panicked
        ("Exception caught at unsupported level " ++ toString level) }

/-- Rendering that the spec's words describe for the fault report, with all
seven fields hex-formatted ("core id, level, kind, syndrome, fault address,
return address, saved state — all hex-formatted").  Kept separate from
`faultMsg`, which is the source's rendering, so the two can be compared. -/
def faultMsgSpecAllHex (core level kind syndrome addr ret state : Nat) : String :=
  "Core #" ++ hexLower core ++ " triggered an exception at level " ++
  hexLower level ++ ": Kind: 0x" ++ hexLower kind ++ ", Syndrome: 0x" ++
  hexLower syndrome ++ ", Address: 0x" ++ hexLower addr ++ ", Location: 0x" ++
  hexLower ret ++ ", State: 0x" ++ hexLower state

/-- Source location carried by a panic, as exposed by `info.location()`:
a file name and a line number. -/
structure SourceLocation where
  file : String
  line : Nat
deriving DecidableEq

/-- The panic information consumed by the panic handler: an optional source
location and an optional message (`info.location()` / `info.message()`). -/
structure PanicInfo where
  location : Option SourceLocation
  message : Option String
deriving DecidableEq

/-- Observable events on the shared UART sink: acquiring its lock, writing a
string through the held guard, releasing the lock, and the terminal halt of
the core. -/
inductive Ev where
  | acquire
  | release
  | write (s : String)
  | halted
deriving DecidableEq

/-- The header written by the panic handler (`src/main.rs` lines 163-170):
with a known location, `"Core #<id> panicked at <file>:<line>: "`; without
one, `"Core #<id> panic: "`. -/
def panicHeader (core : Nat) (loc : Option SourceLocation) : String :=
  match loc with
  | some l => "Core #" ++ toString core ++ " panicked at " ++ l.file ++ ":" ++
      toString l.line ++ ": "
  | none => "Core #" ++ toString core ++ " panic: "

/-- The body written by the panic handler (`src/main.rs` lines 171-175): the
panic message when present, else the literal `"Unknown reason"`. -/
def panicBody (msg : Option String) : String :=
  match msg with
  | some m => m
  | none => "Unknown reason"

/-- One frame line of the backtrace (`src/main.rs` line 209):
`writeln!(uart, "#\x7bframe\x7d: 0x\x7blr:X\x7d")`, uppercase hex, with the
line terminator appended by `writeln!`. -/
def frameLine (frame lr : Nat) : String :=
  "#" ++ toString frame ++ ": 0x" ++ hexUpper lr ++ "\n"

/-- Stack memory as read by the walker: the `ldp {fp}, {lr}, [{fp}]`
instruction loads the pair (next frame pointer, next return address) from
the address held in the current frame pointer. -/
def Mem : Type := Nat → Nat × Nat

/-- The frame lines emitted by the loop of `backtrace` (`src/main.rs` lines
206-212), starting from frame pointer `fp`, return address `lr` and frame
index `frame`: while `fp` is non-null, emit the line for the current return
address, then load the next pair from memory.  The loop has no depth guard
in the source; `fuel` bounds the recursion in the model and is irrelevant
whenever it is at least the chain length. -/
def backtraceLines (mem : Mem) : Nat → Nat → Nat → Nat → List String
  | 0, _, _, _ => []
  | fuel + 1, fp, lr, frame =>
    if fp = 0 then []
    else frameLine frame lr ::
      backtraceLines mem fuel (mem fp).1 (mem fp).2 (frame + 1)

/-- Event trace of one call to `backtrace` (`src/main.rs` lines 198-213): a
single `UART.lock()` acquisition, the header line, the frame lines, and the
release of the guard when it goes out of scope at the end of the function. -/
def backtrace_trace (mem : Mem) (fp lr fuel : Nat) : List Ev :=
  [Ev.acquire, Ev.write "Backtrace:\n"] ++
  (backtraceLines mem fuel fp lr 0).map Ev.write ++ [Ev.release]

/-- Event trace of one run of the panic handler (`src/main.rs` lines
159-180): acquire the sink lock, write header, body and one line
terminator, drop the guard (`drop(uart)`), run `backtrace()`, then halt.
The `debug!` line inside `halt` belongs to the out-of-scope `uart` module
and is abstracted into the terminal `halted` event. -/
def panic_trace (core : Nat) (info : PanicInfo) (mem : Mem)
    (fp lr fuel : Nat) : List Ev :=
  [Ev.acquire, Ev.write (panicHeader core info.location),
   Ev.write (panicBody info.message), Ev.write "\n", Ev.release] ++
  backtrace_trace mem fp lr fuel ++ [Ev.halted]

/-- The k-th frame pointer of the chain starting at `fp`: each step loads
the first word stored at the current frame pointer. -/
def fpIter (mem : Mem) (fp : Nat) : Nat → Nat
  | 0 => fp
  | k + 1 => (mem (fpIter mem fp k)).1

/-- The k-th return address seen by the walker: `lr` initially, then the
second word stored at the (k-1)-th frame pointer. -/
def lrIter (mem : Mem) (fp lr : Nat) : Nat → Nat
  | 0 => lr
  | k + 1 => (mem (fpIter mem fp k)).2

/-- The string writes the panic reporter performs before its first release
of the sink lock (the message portion of the diagnostic sequence). -/
def msgWrites (t : List Ev) : List String :=
  (t.takeWhile fun a =>
    match a with
    | Ev.release => false
    | _ => true).filterMap fun a =>
      match a with
      | Ev.write s => some s
      | _ => none

/-- Number of lock acquisitions in an event trace. -/
def acquireCount (t : List Ev) : Nat :=
  (t.filter fun a =>
    match a with
    | Ev.acquire => true
    | _ => false).length

/-- Program locations of the `halt` routine's assembly block (`src/main.rs`
lines 148-154): `entry` is about to execute `msr daifset, #0x3`; `loop` is
the `wfi; b 0b` loop; `returned` would be control handed back to the
caller, which no step ever produces. -/
inductive HaltLoc where
  | entry
  | wfiLoop
  | returned
deriving DecidableEq

/-- The four DAIF mask bits of the processor state: debug, SError, IRQ and
FIQ.  IRQ and FIQ are the two local interrupt classes. -/
structure Daif where
  d : Bool
  a : Bool
  i : Bool
  f : Bool
deriving DecidableEq

/-- State of a core executing `halt`: its location in the routine and its
DAIF bits. -/
structure HaltState where
  loc : HaltLoc
  daif : Daif
deriving DecidableEq

/-- Effect on the DAIF bits of the single `msr daifset, #0x3` write: the
immediate's bit 0 sets the FIQ mask and bit 1 sets the IRQ mask, so both
local interrupt classes are masked by this one write; the debug and SError
masks are untouched. -/
def daifSet3 (b : Daif) : Daif := { b with i := true, f := true }

/-- One step of the `halt` routine: from `entry`, perform the single
status-register write and fall into the loop; in the loop, `wfi` then
`b 0b` stays in the loop; `returned` has no predecessor and no successor
other than itself. -/
def haltStep (s : HaltState) : HaltState :=
  match s.loc with
  | .entry => { loc := .wfiLoop, daif := daifSet3 s.daif }
  | .wfiLoop => s
  | .returned => s

/-- Running `halt` for `n` steps from a given state. -/
def haltRun (s : HaltState) : Nat → HaltState
  | 0 => s
  | n + 1 => haltStep (haltRun s n)

/-- Modelled from the spec: actions on the shared sink's mutual-exclusion
lock (the `sync` and `uart` modules are declared in `src/main.rs` but their
sources are not under src/).  Per the spec the lock has blocking busy-wait
acquisition with exactly one holder at a time, so a schedule only ever
grants the lock when it is free; `emit` is one byte written by the holder
through its guard. -/
inductive SinkAct where
  | lock (c : Nat)
  | emit (c : Nat) (b : Char)
  | unlock (c : Nat)
deriving DecidableEq

/-- Modelled from the spec: one step of the lock automaton.  The state is
the current holder (`none` when free).  A step that mutual exclusion rules
out (locking a held lock, or writing or unlocking without holding it)
yields `none`: such an action cannot be scheduled at that instant. -/
def sinkStep : Option Nat → SinkAct → Option (Option Nat)
  | none, .lock c => some (some c)
  | some _, .lock _ => none
  | some c, .emit d _ => if c = d then some (some c) else none
  | none, .emit _ _ => none
  | some c, .unlock d => if c = d then some none else none
  | none, .unlock _ => none

/-- Modelled from the spec: running a schedule of sink actions from a lock
state; `none` marks a schedule that violates mutual exclusion. -/
def sinkRun (st : Option Nat) : List SinkAct → Option (Option Nat)
  | [] => some st
  | a :: rest =>
    match sinkStep st a with
    | some st2 => sinkRun st2 rest
    | none => none

/-- The combined byte stream a schedule produces on the sink. -/
def sinkOut (t : List SinkAct) : List Char :=
  t.filterMap fun a =>
    match a with
    | .emit _ b => some b
    | _ => none

/-- Frame lines of `backtrace` when each `writeln!(...).unwrap()` may fail:
`wr s = true` models a successful sink write of `s`, `wr s = false` a write
error, whose `unwrap` raises a nested panic, modelled as `none`. -/
def backtraceLinesRun (wr : String → Bool) (mem : Mem) :
    Nat → Nat → Nat → Nat → Option (List String)
  | 0, _, _, _ => some []
  | fuel + 1, fp, lr, frame =>
    if fp = 0 then some []
    else if wr (frameLine frame lr) then
      match backtraceLinesRun wr mem fuel (mem fp).1 (mem fp).2 (frame + 1) with
      | some rest => some (frameLine frame lr :: rest)
      | none => none
    else none

/-- The whole panic diagnostic sequence when each unwrapped write may fail:
the handler's three writes, the backtrace header and every frame line each
go through `wr`; the first failure hits an `unwrap` and raises a nested
panic, modelled as `none`.  On all-success the result is the event trace of
the run. -/
def panic_run (wr : String → Bool) (core : Nat) (info : PanicInfo)
    (mem : Mem) (fp lr fuel : Nat) : Option (List Ev) :=
  if wr (panicHeader core info.location) then
    if wr (panicBody info.message) then
      if wr "\n" then
        if wr "Backtrace:\n" then
          match backtraceLinesRun wr mem fuel fp lr 0 with
          | some lines =>
              some ([Ev.acquire, Ev.write (panicHeader core info.location),
                     Ev.write (panicBody info.message), Ev.write "\n",
                     Ev.release] ++
                    ([Ev.acquire, Ev.write "Backtrace:\n"] ++
                     lines.map Ev.write ++ [Ev.release]) ++ [Ev.halted])
          | none => none
        else none
      else none
    else none
  else none

/-- Concrete register snapshot used as an evaluation input: raw affinity
value 255 (low byte 255), `currentel` 4 (exception level 1), and distinct
values in the level-1 fault registers. -/
def regsC1 : Regs :=
  { mpidr_el1 := 255, currentel := 4, esr_el1 := 1, far_el1 := 2,
    elr_el1 := 3, spsr_el1 := 4, esr_el2 := 21, far_el2 := 22,
    elr_el2 := 23, spsr_el2 := 24 }

/-- Concrete register snapshot with `currentel` 12, i.e. exception level 3,
which the fault handler does not support. -/
def regsC2 : Regs :=
  { mpidr_el1 := 7, currentel := 12, esr_el1 := 1, far_el1 := 2,
    elr_el1 := 3, spsr_el1 := 4, esr_el2 := 21, far_el2 := 22,
    elr_el2 := 23, spsr_el2 := 24 }

/-- Concrete register snapshot with raw affinity value 2, a valid core id on
the four-core machine. -/
def regsC7 : Regs :=
  { mpidr_el1 := 2, currentel := 4, esr_el1 := 0, far_el1 := 0,
    elr_el1 := 0, spsr_el1 := 0, esr_el2 := 0, far_el2 := 0,
    elr_el2 := 0, spsr_el2 := 0 }

/-- Concrete stack memory holding the two-frame chain 100 → 200 → null. -/
def memC4 : Mem := fun a => if a = 100 then (200, 11) else (0, 22)

/-- Concrete stack memory in which every frame record points at the null
terminator, giving a one-frame chain from any non-null start. -/
def memC5 : Mem := fun _ => (0, 33)

/-- Masking with `0xff` is reduction modulo 256; this is the whole content
of the `and {id}, {id}, #0xff` instruction in `cpu_id`. -/
theorem cpu_id_eq_mod (regs : Regs) : cpu_id regs = regs.mpidr_el1 % 256 := by
  show regs.mpidr_el1 &&& 255 = regs.mpidr_el1 % 256
  have h : (255 : Nat) = 2 ^ 8 - 1 := by norm_num
  apply Nat.eq_of_testBit_eq
  intro k
  rw [Nat.testBit_land, show (256 : Nat) = 2 ^ 8 from rfl,
    Nat.testBit_mod_two_pow, h, Nat.testBit_two_pow_sub_one]
  by_cases hk : k < 8 <;> simp [hk]

/-- C6: for every raw hardware affinity register value, `cpu_id` returns
exactly the low 8 bits of that value. -/
theorem cpu_id_low_bits (regs : Regs) : cpu_id regs = regs.mpidr_el1 % 256 :=
  cpu_id_eq_mod regs

/-- C7 counterexample: the claim that every `cpu_id` result lies in
`[0, CPU_COUNT)` for every possible raw affinity value fails at the raw
value 255, where `cpu_id` returns 255. -/
theorem cpu_id_range_cex : ¬ cpu_id regsC1 < CPU_COUNT := by decide

/-- C7 (amended): `cpu_id` always returns a value below 256, and its result
lies in `[0, CPU_COUNT)` exactly when the low 8 bits of the raw affinity
value do — which is the case for every core of this four-core machine. -/
theorem cpu_id_range (regs : Regs) (h : regs.mpidr_el1 % 256 < CPU_COUNT) :
    cpu_id regs < 256 ∧ cpu_id regs < CPU_COUNT := by
  rw [cpu_id_eq_mod]
  exact ⟨Nat.mod_lt _ (by norm_num), h⟩

/-- C7 witness: the amended bound evaluated at the raw affinity value 2. -/
theorem cpu_id_range_witness :
    regsC7.mpidr_el1 % 256 < CPU_COUNT ∧
    (cpu_id regsC7 < 256 ∧ cpu_id regsC7 < CPU_COUNT) :=
  ⟨by decide, cpu_id_range regsC7 (by decide)⟩

/-- C2: when the current exception level is neither 1 nor 2, `fault` raises
the unsupported-level error immediately and reads none of the four fault
registers. -/
theorem fault_unsupported_level (regs : Regs) (kind : Nat)
    (h1 : faultLevel regs ≠ 1) (h2 : faultLevel regs ≠ 2) :
    (fault regs kind).faultRegReads = [] ∧
    (fault regs kind).outcome =
      Outcome.panicked
        ("Exception caught at unsupported level " ++
          toString (faultLevel regs)) := by
  simp [fault, h1, h2]

/-- C2 witness: the unsupported-level behaviour evaluated at exception
level 3 (`currentel` 12). -/
theorem fault_unsupported_level_witness :
    faultLevel regsC2 ≠ 1 ∧ faultLevel regsC2 ≠ 2 ∧
    ((fault regsC2 9).faultRegReads = [] ∧
     (fault regsC2 9).outcome =
       Outcome.panicked
         ("Exception caught at unsupported level " ++
           toString (faultLevel regsC2))) :=
  ⟨by decide, by decide, fault_unsupported_level regsC2 9 (by decide) (by decide)⟩

/-- C1 counterexample: the claim that the fault report carries all seven
fields hex-formatted fails at raw affinity value 255 (core id 255): the
source renders the core id in decimal (`"Core #255"`), not hex
(`"Core #ff"`), so the report differs from the all-hex rendering the claim
describes. -/
theorem fault_report_all_hex_cex :
    (fault regsC1 5).outcome ≠
      Outcome.panicked
        (faultMsgSpecAllHex (cpu_id regsC1) (faultLevel regsC1) 5
          regsC1.esr_el1 regsC1.far_el1 regsC1.elr_el1 regsC1.spsr_el1) := by
  decide

/-- C1 (amended): at exception level 1 or 2, `fault` reads exactly the four
level-specific registers for that level (syndrome, fault address, return
address, saved state), then panics — never returns — with a report carrying
core id and level in decimal and kind, syndrome, fault address, return
address and saved state in lowercase hex. -/
theorem fault_level12_report (regs : Regs) (kind : Nat)
    (h : faultLevel regs = 1 ∨ faultLevel regs = 2) :
    (fault regs kind).faultRegReads =
      (if faultLevel regs = 2 then
        [FaultReg.esr_el2, FaultReg.far_el2, FaultReg.elr_el2, FaultReg.spsr_el2]
       else
        [FaultReg.esr_el1, FaultReg.far_el1, FaultReg.elr_el1, FaultReg.spsr_el1]) ∧
    (fault regs kind).outcome =
      Outcome.panicked
        ("Core #" ++ toString (cpu_id regs) ++
         " triggered an exception at level " ++ toString (faultLevel regs) ++
         ": Kind: 0x" ++ hexLower kind ++ ", Syndrome: 0x" ++
         hexLower (if faultLevel regs = 2 then regs.esr_el2 else regs.esr_el1) ++
         ", Address: 0x" ++
         hexLower (if faultLevel regs = 2 then regs.far_el2 else regs.far_el1) ++
         ", Location: 0x" ++
         hexLower (if faultLevel regs = 2 then regs.elr_el2 else regs.elr_el1) ++
         ", State: 0x" ++
         hexLower (if faultLevel regs = 2 then regs.spsr_el2 else regs.spsr_el1)) ∧
    (fault regs kind).outcome ≠ Outcome.ret := by
  rcases h with h | h <;> simp [fault, faultMsg, h]

/-- C1 witness: the amended report evaluated at exception level 1 with core
id 255 and kind 5. -/
theorem fault_level12_report_witness :
    (faultLevel regsC1 = 1 ∨ faultLevel regsC1 = 2) ∧
    ((fault regsC1 5).faultRegReads =
      (if faultLevel regsC1 = 2 then
        [FaultReg.esr_el2, FaultReg.far_el2, FaultReg.elr_el2, FaultReg.spsr_el2]
       else
        [FaultReg.esr_el1, FaultReg.far_el1, FaultReg.elr_el1, FaultReg.spsr_el1]) ∧
     (fault regsC1 5).outcome =
       Outcome.panicked
         ("Core #" ++ toString (cpu_id regsC1) ++
          " triggered an exception at level " ++ toString (faultLevel regsC1) ++
          ": Kind: 0x" ++ hexLower 5 ++ ", Syndrome: 0x" ++
          hexLower (if faultLevel regsC1 = 2 then regsC1.esr_el2 else regsC1.esr_el1) ++
          ", Address: 0x" ++
          hexLower (if faultLevel regsC1 = 2 then regsC1.far_el2 else regsC1.far_el1) ++
          ", Location: 0x" ++
          hexLower (if faultLevel regsC1 = 2 then regsC1.elr_el2 else regsC1.elr_el1) ++
          ", State: 0x" ++
          hexLower (if faultLevel regsC1 = 2 then regsC1.spsr_el2 else regsC1.spsr_el1)) ∧
     (fault regsC1 5).outcome ≠ Outcome.ret) :=
  ⟨Or.inl (by decide), fault_level12_report regsC1 5 (Or.inl (by decide))⟩

/-- C3: in every run of the panic reporter the writes performed before the
lock is first released are exactly a location-dependent header
(`"Core #<id> panicked at <file>:<line>: "` when a location is known, else
`"Core #<id> panic: "`), then the message text or the literal
`"Unknown reason"`, then exactly one write of the line terminator. -/
theorem panic_reporter_output (core : Nat) (info : PanicInfo) (mem : Mem)
    (fp lr fuel : Nat) :
    msgWrites (panic_trace core info mem fp lr fuel) =
      [(match info.location with
        | some l => "Core #" ++ toString core ++ " panicked at " ++ l.file ++
            ":" ++ toString l.line ++ ": "
        | none => "Core #" ++ toString core ++ " panic: "),
       (match info.message with
        | some m => m
        | none => "Unknown reason"),
       "\n"] := by
  rcases info with ⟨loc, msg⟩
  rcases loc with _ | l <;> rcases msg with _ | m <;> rfl

/-- Head-step form of the frame-pointer iteration: following the chain for
`k + 1` steps from `fp` is following it for `k` steps from the frame
pointer loaded at `fp`. -/
theorem fpIter_shift (mem : Mem) (fp : Nat) :
    ∀ k, fpIter mem fp (k + 1) = fpIter mem (mem fp).1 k
  | 0 => rfl
  | k + 1 => by
    show (mem (fpIter mem fp (k + 1))).1 = _
    rw [fpIter_shift mem fp k]
    rfl

/-- Head-step form of the return-address iteration. -/
theorem lrIter_shift (mem : Mem) (fp lr : Nat) :
    ∀ k, lrIter mem fp lr (k + 1) = lrIter mem (mem fp).1 (mem fp).2 k
  | 0 => rfl
  | k + 1 => by
    show (mem (fpIter mem fp (k + 1))).2 = _
    rw [fpIter_shift mem fp k]
    rfl

/-- Loop correctness of the stack walker: on a frame-pointer chain of length
`K` (the K-th pointer is the null sentinel, all earlier ones are non-null)
and with enough fuel, the loop emits exactly one line per frame, with
consecutive indices from `frame` and the return addresses of the chain. -/
theorem backtraceLines_chain (mem : Mem) :
    ∀ K fp lr frame fuel, fpIter mem fp K = 0 →
      (∀ j, j < K → fpIter mem fp j ≠ 0) → K ≤ fuel →
      backtraceLines mem fuel fp lr frame =
        (List.range K).map fun j => frameLine (frame + j) (lrIter mem fp lr j)
  | 0, fp, lr, frame, fuel, hK, _, _ => by
    have hfp : fp = 0 := hK
    cases fuel with
    | zero => simp [backtraceLines]
    | succ f => simp [backtraceLines, hfp]
  | K + 1, fp, lr, frame, fuel, hK, hj, hfuel => by
    have hfp : fp ≠ 0 := hj 0 (Nat.succ_pos K)
    obtain ⟨f, rfl⟩ : ∃ f, fuel = f + 1 := by
      cases fuel with
      | zero => omega
      | succ f => exact ⟨f, rfl⟩
    have hK2 : fpIter mem (mem fp).1 K = 0 := by
      rw [← fpIter_shift]; exact hK
    have hj2 : ∀ j, j < K → fpIter mem (mem fp).1 j ≠ 0 := by
      intro j hjK
      rw [← fpIter_shift]
      exact hj (j + 1) (Nat.succ_lt_succ hjK)
    have ih := backtraceLines_chain mem K (mem fp).1 (mem fp).2 (frame + 1) f
      hK2 hj2 (Nat.le_of_succ_le_succ hfuel)
    rw [backtraceLines, if_neg hfp, ih, List.range_succ_eq_map]
    simp only [List.map_cons, List.map_map]
    refine congrArg₂ List.cons ?_ (List.map_congr_left ?_)
    · rw [Nat.add_zero]
      rfl
    · intro j _
      simp only [Function.comp]
      rw [lrIter_shift]
      have : frame + (j + 1) = frame + 1 + j := by omega
      rw [this]

/-- C4: on a frame-pointer chain of length `K` terminated by a null frame
pointer, the stack walk emits the `"Backtrace:"` header line followed by
exactly `K` frame lines `"#<n>: 0x<hex>"` with the index running 0, 1, …,
K-1, and then stops; for `K = 0` it emits the header and no frame lines. -/
theorem backtrace_chain_output (mem : Mem) (fp lr K fuel : Nat)
    (hK : fpIter mem fp K = 0) (hj : ∀ j, j < K → fpIter mem fp j ≠ 0)
    (hfuel : K ≤ fuel) :
    backtrace_trace mem fp lr fuel =
      [Ev.acquire, Ev.write "Backtrace:\n"] ++
      ((List.range K).map fun j =>
        Ev.write ("#" ++ toString j ++ ": 0x" ++ hexUpper (lrIter mem fp lr j) ++ "\n")) ++
      [Ev.release] := by
  unfold backtrace_trace
  rw [backtraceLines_chain mem K fp lr 0 fuel hK hj hfuel]
  simp [frameLine, List.map_map, Function.comp]

/-- C4 witness: the walk evaluated on the concrete two-frame chain
100 → 200 → null, emitting frame lines #0 and #1 and stopping. -/
theorem backtrace_chain_output_witness :
    fpIter memC4 100 2 = 0 ∧ (∀ j, j < 2 → fpIter memC4 100 j ≠ 0) ∧ 2 ≤ 2 ∧
    backtrace_trace memC4 100 7 2 =
      [Ev.acquire, Ev.write "Backtrace:\n"] ++
      ((List.range 2).map fun j =>
        Ev.write ("#" ++ toString j ++ ": 0x" ++ hexUpper (lrIter memC4 100 7 j) ++ "\n")) ++
      [Ev.release] :=
  ⟨by decide, by decide, by decide,
   backtrace_chain_output memC4 100 7 2 2 (by decide) (by decide) (by decide)⟩

/-- Frame-line writes contribute no lock acquisitions to a trace. -/
theorem filter_acquire_writes (ss : List String) :
    (ss.map Ev.write).filter (fun a =>
      match a with
      | Ev.acquire => true
      | _ => false) = [] := by
  induction ss with
  | nil => rfl
  | cons s ss ih => simp [ih]

/-- C5 counterexample: on a one-frame chain the claimed locking discipline
(a fresh acquisition for the header and one per frame line) would take two
acquisitions, but the walker's trace contains exactly one: `backtrace`
takes the sink lock once and holds it across the header and every frame
line. -/
theorem backtrace_acquire_per_line_cex :
    acquireCount (backtrace_trace memC5 100 7 2) ≠
      1 + (backtraceLines memC5 2 100 7 0).length := by
  decide

/-- C5 (amended): the panic reporter releases the sink lock after writing
the panic message and before invoking the stack walker, and the walker
re-acquires the lock independently — but only once, holding that single
acquisition across the backtrace header and all frame lines and releasing
it at the end of the walk. -/
theorem panic_lock_discipline (core : Nat) (info : PanicInfo) (mem : Mem)
    (fp lr fuel : Nat) :
    panic_trace core info mem fp lr fuel =
      ([Ev.acquire, Ev.write (panicHeader core info.location),
        Ev.write (panicBody info.message), Ev.write "\n"] ++ [Ev.release]) ++
      backtrace_trace mem fp lr fuel ++ [Ev.halted] ∧
    backtrace_trace mem fp lr fuel =
      [Ev.acquire] ++
      (Ev.write "Backtrace:\n" :: (backtraceLines mem fuel fp lr 0).map Ev.write) ++
      [Ev.release] ∧
    acquireCount (backtrace_trace mem fp lr fuel) = 1 := by
  refine ⟨rfl, rfl, ?_⟩
  simp [acquireCount, backtrace_trace, List.filter_append, filter_acquire_writes]

/-- After its first step the halt routine sits in the wait loop forever,
with the DAIF write applied. -/
theorem haltRun_loop (b : Daif) :
    ∀ n, haltRun { loc := HaltLoc.entry, daif := b } (n + 1) =
      { loc := HaltLoc.wfiLoop, daif := daifSet3 b }
  | 0 => rfl
  | n + 1 => by
    show haltStep (haltRun { loc := HaltLoc.entry, daif := b } (n + 1)) = _
    rw [haltRun_loop b n]
    rfl

/-- C8: `halt` masks both local interrupt classes (IRQ and FIQ) with its
single `msr daifset, #0x3` status-register write, and then never returns:
after any positive number of steps the core is still in the wait loop, so
no instruction scheduled after the call ever executes. -/
theorem halt_never_returns (b : Daif) (n : Nat) (h : 1 ≤ n) :
    haltStep { loc := HaltLoc.entry, daif := b } =
      { loc := HaltLoc.wfiLoop, daif := { b with i := true, f := true } } ∧
    (haltRun { loc := HaltLoc.entry, daif := b } n).daif.i = true ∧
    (haltRun { loc := HaltLoc.entry, daif := b } n).daif.f = true ∧
    (haltRun { loc := HaltLoc.entry, daif := b } n).loc ≠ HaltLoc.returned := by
  obtain ⟨m, rfl⟩ : ∃ m, n = m + 1 := by
    cases n with
    | zero => omega
    | succ m => exact ⟨m, rfl⟩
  rw [haltRun_loop b m]
  exact ⟨rfl, rfl, rfl, by simp⟩

/-- C8 witness: the halt behaviour evaluated for three steps from a state
with all DAIF bits clear. -/
theorem halt_never_returns_witness :
    1 ≤ 3 ∧
    (haltStep { loc := HaltLoc.entry, daif := ⟨false, false, false, false⟩ } =
      { loc := HaltLoc.wfiLoop,
        daif := { d := false, a := false, i := true, f := true } } ∧
     (haltRun { loc := HaltLoc.entry, daif := ⟨false, false, false, false⟩ } 3).daif.i = true ∧
     (haltRun { loc := HaltLoc.entry, daif := ⟨false, false, false, false⟩ } 3).daif.f = true ∧
     (haltRun { loc := HaltLoc.entry, daif := ⟨false, false, false, false⟩ } 3).loc ≠
       HaltLoc.returned) :=
  ⟨by decide, halt_never_returns ⟨false, false, false, false⟩ 3 (by decide)⟩

/-- When every sink write succeeds, the fallible walker loop produces
exactly the infallible loop's lines. -/
theorem backtraceLinesRun_ok (wr : String → Bool) (mem : Mem)
    (hwr : ∀ s, wr s = true) :
    ∀ fuel fp lr frame, backtraceLinesRun wr mem fuel fp lr frame =
      some (backtraceLines mem fuel fp lr frame)
  | 0, _, _, _ => rfl
  | fuel + 1, fp, lr, frame => by
    rw [backtraceLinesRun, backtraceLines]
    by_cases hfp : fp = 0
    · simp [hfp]
    · simp [hfp, hwr, backtraceLinesRun_ok wr mem hwr fuel]

/-- C9: under the hypothesis that every sink write succeeds, no unwrapped
write in the panic handler or the backtrace walker can fail, so the
diagnostic path never raises a nested panic and produces exactly the normal
event trace. -/
theorem panic_run_no_nested (wr : String → Bool) (core : Nat)
    (info : PanicInfo) (mem : Mem) (fp lr fuel : Nat)
    (hwr : ∀ s, wr s = true) :
    panic_run wr core info mem fp lr fuel =
      some (panic_trace core info mem fp lr fuel) := by
  simp [panic_run, hwr, backtraceLinesRun_ok wr mem hwr, panic_trace,
    backtrace_trace]

/-- C9 witness: the diagnostic run with an always-succeeding sink, evaluated
at core 0 with no location and no message on the one-frame chain. -/
theorem panic_run_no_nested_witness :
    (∀ s, (fun _ : String => true) s = true) ∧
    panic_run (fun _ : String => true) 0 ⟨none, none⟩ memC5 100 7 2 =
      some (panic_trace 0 ⟨none, none⟩ memC5 100 7 2) :=
  ⟨fun _ => rfl,
   panic_run_no_nested (fun _ : String => true) 0 ⟨none, none⟩ memC5 100 7 2
     fun _ => rfl⟩

/-- Running a schedule splits along concatenation: the second part runs
from the state the first part reaches, and a violation anywhere poisons the
whole run. -/
theorem sinkRun_append :
    ∀ (xs : List SinkAct) (st : Option Nat) (ys : List SinkAct),
      sinkRun st (xs ++ ys) =
        match sinkRun st xs with
        | some st2 => sinkRun st2 ys
        | none => none
  | [], st, ys => rfl
  | a :: xs, st, ys => by
    show (match sinkStep st a with
          | some st2 => sinkRun st2 (xs ++ ys)
          | none => none) =
        match (match sinkStep st a with
               | some st2 => sinkRun st2 xs
               | none => none) with
        | some st2 => sinkRun st2 ys
        | none => none
    cases h : sinkStep st a with
    | some st2 => exact sinkRun_append xs st2 ys
    | none => rfl

/-- Mutual exclusion of the sink lock: while core `c` holds the lock, every
action a valid schedule can take — short of `c` itself unlocking — is a
byte emitted by `c`; no other core can lock, emit or unlock. -/
theorem sink_held_excl (c : Nat) :
    ∀ (m : List SinkAct) (st : Option Nat),
      sinkRun (some c) m = some st → SinkAct.unlock c ∉ m →
      ∀ a ∈ m, ∃ b, a = SinkAct.emit c b
  | [], _, _, _, _, ha => absurd ha (List.not_mem_nil _)
  | a :: m, st, hrun, hm, x, hx => by
    have hstep :
        sinkRun (some c) (a :: m) =
          match sinkStep (some c) a with
          | some st2 => sinkRun st2 m
          | none => none := rfl
    cases a with
    | lock d =>
      rw [hstep] at hrun
      simp [sinkStep] at hrun
    | emit d b =>
      by_cases hd : c = d
      · subst hd
        rw [hstep] at hrun
        simp [sinkStep] at hrun
        rcases List.mem_cons.mp hx with hx | hx
        · exact ⟨b, hx⟩
        · exact sink_held_excl c m st hrun
            (fun hmem => hm (List.mem_cons_of_mem _ hmem)) x hx
      · rw [hstep] at hrun
        simp [sinkStep, hd] at hrun
    | unlock d =>
      by_cases hd : c = d
      · subst hd
        exact absurd (List.mem_cons_self _ _) hm
      · rw [hstep] at hrun
        simp [sinkStep, hd] at hrun

/-- C10 (spec-modelled lock): in any schedule that respects the lock's
mutual exclusion, the bytes a core emits during a single lock-held write
operation are uninterrupted by any other core — the operation's complete
byte sequence appears as one contiguous substring of the combined output
stream, even though output from other cores may precede and follow it. -/
theorem sink_write_contiguous (c : Nat) (t1 m t2 : List SinkAct)
    (hval : sinkRun none
      (t1 ++ [SinkAct.lock c] ++ m ++ [SinkAct.unlock c] ++ t2) ≠ none)
    (hm : SinkAct.unlock c ∉ m) :
    (∀ a ∈ m, ∃ b, a = SinkAct.emit c b) ∧
    sinkOut (t1 ++ [SinkAct.lock c] ++ m ++ [SinkAct.unlock c] ++ t2) =
      sinkOut t1 ++ sinkOut m ++ sinkOut t2 := by
  constructor
  · have hre : t1 ++ [SinkAct.lock c] ++ m ++ [SinkAct.unlock c] ++ t2 =
        t1 ++ ([SinkAct.lock c] ++ (m ++ ([SinkAct.unlock c] ++ t2))) := by
      simp
    rw [hre, sinkRun_append t1] at hval
    cases h1 : sinkRun none t1 with
    | none => rw [h1] at hval; exact absurd rfl hval
    | some st1 =>
      rw [h1] at hval
      have hval2 :
          sinkRun st1 ([SinkAct.lock c] ++ (m ++ ([SinkAct.unlock c] ++ t2))) ≠
            none := hval
      cases st1 with
      | some d =>
        exact absurd rfl hval2
      | none =>
        have hval3 :
            sinkRun (some c) (m ++ ([SinkAct.unlock c] ++ t2)) ≠ none := hval2
        rw [sinkRun_append m] at hval3
        cases h2 : sinkRun (some c) m with
        | none => rw [h2] at hval3; exact absurd rfl hval3
        | some st2 => exact sink_held_excl c m st2 h2 hm
  · simp [sinkOut, List.filterMap_append]

/-- C10 witness: a two-core interleaving in which core 0 writes "B" before
and "C" after core 1's lock-held write of "AZ"; core 1's two bytes stay
contiguous in the combined stream. -/
theorem sink_write_contiguous_witness :
    (sinkRun none
      ([SinkAct.lock 0, SinkAct.emit 0 'B', SinkAct.unlock 0] ++
       [SinkAct.lock 1] ++ [SinkAct.emit 1 'A', SinkAct.emit 1 'Z'] ++
       [SinkAct.unlock 1] ++
       [SinkAct.lock 0, SinkAct.emit 0 'C', SinkAct.unlock 0]) ≠ none) ∧
    (SinkAct.unlock 1 ∉ [SinkAct.emit 1 'A', SinkAct.emit 1 'Z']) ∧
    ((∀ a ∈ [SinkAct.emit 1 'A', SinkAct.emit 1 'Z'], ∃ b, a = SinkAct.emit 1 b) ∧
     sinkOut
        ([SinkAct.lock 0, SinkAct.emit 0 'B', SinkAct.unlock 0] ++
         [SinkAct.lock 1] ++ [SinkAct.emit 1 'A', SinkAct.emit 1 'Z'] ++
         [SinkAct.unlock 1] ++
         [SinkAct.lock 0, SinkAct.emit 0 'C', SinkAct.unlock 0]) =
       sinkOut [SinkAct.lock 0, SinkAct.emit 0 'B', SinkAct.unlock 0] ++
       sinkOut [SinkAct.emit 1 'A', SinkAct.emit 1 'Z'] ++
       sinkOut [SinkAct.lock 0, SinkAct.emit 0 'C', SinkAct.unlock 0]) :=
  ⟨by decide, by decide,
   sink_write_contiguous 1
     [SinkAct.lock 0, SinkAct.emit 0 'B', SinkAct.unlock 0]
     [SinkAct.emit 1 'A', SinkAct.emit 1 'Z']
     [SinkAct.lock 0, SinkAct.emit 0 'C', SinkAct.unlock 0]
     (by decide) (by decide)⟩

end RpiBmark
